import Mathlib

/-!
Verification of the llm-research-agent-cli core: a shallow embedding of the
orchestration state machine (`src/agent/graph.py`), the step functions
(`src/agent/nodes.py`) and the retrieval coordinator (`src/agent/tools.py`),
with theorems settling the specification's claims about evidence merging,
citation remapping, error handling and the iteration bound.

LLM and search collaborators are opaque in the source; here their outcomes
are passed to the step functions as explicit `Except` values: `.ok` is a
normal return, `.error` is a raised exception.
-/

namespace Agent

/-- `Document` from `src/agent/state.py`: `{url, title, content}`. -/
structure Document where
  url : String
  title : String
  content : String
deriving DecidableEq, Repr

/-- The `step` literal of `GraphError` in `src/agent/state.py`. -/
inductive StepTag where
  | generate
  | search
  | reflect
  | synthesize
deriving DecidableEq, Repr

/-- The `error_type` literal of `GraphError` in `src/agent/state.py`. -/
inductive ErrTag where
  | RateLimit
  | Timeout
  | EmptyResult
  | LLMFailure
  | HTTPError
  | UnknownError
deriving DecidableEq, Repr

/-- `GraphError` from `src/agent/state.py`. -/
structure GraphError where
  step : StepTag
  error_type : ErrTag
  message : String
deriving DecidableEq, Repr

/-- A citation record as built by `synthesize_node` in `src/agent/nodes.py`:
`{"id": new_id, "url": ..., "title": ...}`. -/
structure Citation where
  id : Nat
  url : String
  title : String
deriving DecidableEq, Repr

/-- `GraphState` from `src/agent/state.py`. -/
structure GraphState where
  question : String
  queries : List String
  documents : List Document
  need_more : Bool
  final_answer : String
  citations : List Citation
  loop_count : Nat
  max_iter : Nat
  errors : List GraphError
deriving DecidableEq, Repr

/-- Output model `GenerateQueriesOutput` of the query-generation collaborator
(`src/agent/nodes.py`). -/
structure GenerateQueriesOutput where
  queries : List String
deriving DecidableEq, Repr

/-- Output model `ReflectOutput` of the reflection collaborator
(`src/agent/nodes.py`); `new_queries` is `Optional[List[str]]`. -/
structure ReflectOutput where
  need_more : Bool
  new_queries : Option (List String)
deriving DecidableEq, Repr

/-- Output model `SynthesizeOutput` of the synthesis collaborator
(`src/agent/nodes.py`); `cited_ids` are untrusted Python ints. -/
structure SynthesizeOutput where
  answer : String
  cited_ids : List Int
deriving DecidableEq, Repr

/-- A failure raised by the generation collaborator: `generate_queries_node`
distinguishes `RateLimitError` from any other exception. -/
structure LLMErr where
  rateLimit : Bool
  message : String
deriving DecidableEq, Repr

/-- Whether `needle` occurs as a contiguous run inside the character list,
embedding Python's `needle in haystack` substring test. -/
def hasSubChars (needle : List Char) : List Char → Bool
  | [] => needle.isEmpty
  | c :: rest => needle.isPrefixOf (c :: rest) || hasSubChars needle rest

/-- Python's `needle in haystack` on strings. -/
def strHasSub (haystack needle : String) : Bool :=
  hasSubChars needle.toList haystack.toList

/-- `log_error` from `src/agent/nodes.py`: the `errors` value of the partial
update, a single-record list. -/
def log_error (step : StepTag) (error_type : ErrTag) (message : String) :
    List GraphError :=
  [{ step := step, error_type := error_type, message := message }]

/-- `generate_queries_node` from `src/agent/nodes.py`, with the collaborator
invocation passed in as an `Except`.  The returned state is the partial
update merged into `state` (LangGraph merge: keys present in the returned
dict overwrite, others stay). -/
def generate_queries_node (state : GraphState)
    (llm : Except LLMErr GenerateQueriesOutput) : GraphState :=
  match llm with
  | .ok result => { state with queries := result.queries }
  | .error e =>
    if e.rateLimit then
      { state with queries := [], errors := log_error .generate .RateLimit e.message }
    else
      { state with queries := [], errors := log_error .generate .LLMFailure e.message }

/-- `web_search_node` from `src/agent/nodes.py`: the whole search batch is run
inside `try`; on success new documents are appended after the existing ones
and `queries` is cleared; on a raised exception the error branch keys the
record on whether the message mentions 429 / Too Many Requests, and returns
`documents` unchanged. -/
def web_search_node (state : GraphState)
    (search : Except String (List Document)) : GraphState :=
  match search with
  | .ok documents =>
    { state with documents := state.documents ++ documents, queries := [] }
  | .error e =>
    if strHasSub e "429" || strHasSub e "Too Many Requests" then
      { state with errors := log_error .search .RateLimit e }
    else
      { state with errors := log_error .search .HTTPError e }

/-- `reflect_node` from `src/agent/nodes.py`.  The source has no
`try`/`except` around `chain.invoke`, so a collaborator failure propagates
out of the node: the embedding returns `Except`, and `.error` means the
exception escapes the state machine. -/
def reflect_node (state : GraphState)
    (llm : Except String ReflectOutput) : Except String GraphState :=
  llm.map fun result =>
    { state with
      need_more := result.need_more,
      queries := result.new_queries.getD [],
      loop_count := state.loop_count + 1 }

/-- `original_citations_map.get(original_id)` in `synthesize_node`: the map
holds the documents keyed `1..N` in evidence order, so a lookup succeeds
exactly for ids in that range. -/
def lookupDoc (documents : List Document) (id : Int) : Option Document :=
  if 1 ≤ id ∧ id ≤ (documents.length : Int) then documents.get? (id - 1).toNat
  else none

/-- The loop state of the citation remapping in `synthesize_node`:
`final_citations_list`, `seen_urls`, `original_to_new_id_map`. -/
structure RemapAcc where
  citations : List Citation
  seen_urls : List String
  id_map : List (Int × Nat)
deriving DecidableEq, Repr

/-- One iteration of the `for original_id in cited_original_ids_from_llm`
loop in `synthesize_node`. -/
def remapStep (documents : List Document) (acc : RemapAcc)
    (original_id : Int) : RemapAcc :=
  match lookupDoc documents original_id with
  | some doc =>
    if acc.seen_urls.contains doc.url then acc
    else
      { citations := acc.citations ++
          [{ id := acc.citations.length + 1, url := doc.url, title := doc.title }],
        seen_urls := acc.seen_urls ++ [doc.url],
        id_map := acc.id_map ++ [(original_id, acc.citations.length + 1)] }
  | none => acc

/-- The whole remapping loop of `synthesize_node`, started from empty
accumulators. -/
def remapAll (documents : List Document) (cited_ids : List Int) : RemapAcc :=
  cited_ids.foldl (remapStep documents) { citations := [], seen_urls := [], id_map := [] }

/-- `original_to_new_id_map.get(_id, _id)` rendered to text: the new id when
the original id was resolved, otherwise the original id itself. -/
def idMapGetD (id_map : List (Int × Nat)) (id : Int) : String :=
  match id_map.find? (fun p => p.1 == id) with
  | some p => toString p.2
  | none => toString id

/-- The marker-building comprehension of `synthesize_node`:
`"".join([f"[{original_to_new_id_map.get(_id, _id)}]" for _id in cited_ids])`. -/
def renderIds (id_map : List (Int × Nat)) (cited_ids : List Int) : String :=
  String.join (cited_ids.map (fun id => "[" ++ idMapGetD id_map id ++ "]"))

/-- `citation_string_at_end` in `synthesize_node` (left `""` when the
collaborator cited nothing). -/
def markerOf (documents : List Document) (cited_ids : List Int) : String :=
  if cited_ids.isEmpty then ""
  else renderIds (remapAll documents cited_ids).id_map cited_ids

/-- `final_citations_list` in `synthesize_node`. -/
def citationsOf (documents : List Document) (cited_ids : List Int) : List Citation :=
  (remapAll documents cited_ids).citations

/-- The fixed apology text of the error branch of `synthesize_node`. -/
def apology_text : String :=
  "I'm unable to provide a complete answer at this time because of an error. Please try again later."

/-- The fixed text of the empty-evidence branch of `synthesize_node`. -/
def no_info_text : String := "No information found."

/-- `synthesize_node` from `src/agent/nodes.py`, with the collaborator result
passed in (the source invokes it only on the main branch; the first two
branches never look at it). -/
def synthesize_node (state : GraphState) (llm : SynthesizeOutput) : GraphState :=
  if !state.errors.isEmpty then
    { state with final_answer := apology_text, citations := [] }
  else if state.documents.isEmpty then
    { state with final_answer := no_info_text, citations := [] }
  else
    { state with
      final_answer := (llm.answer ++ markerOf state.documents llm.cited_ids).trim,
      citations := citationsOf state.documents llm.cited_ids }

/-- The flatten-and-filter loop of `WebSearchTool.run_concurrent`
(`src/agent/tools.py`): per-query results are gathered with
`return_exceptions=True`; list results are concatenated in query order,
exceptions contribute nothing. -/
def flatOk (results : List (Except String (List Document))) : List Document :=
  results.foldl (fun acc r => match r with | .ok l => acc ++ l | .error _ => acc) []

/-- The de-duplication loop of `WebSearchTool.run_concurrent`: keep a result
only when its `url` was not seen before. -/
def dedupByUrl : List Document → List String → List Document
  | [], _ => []
  | d :: rest, seen =>
    if seen.contains d.url then dedupByUrl rest seen
    else d :: dedupByUrl rest (d.url :: seen)

/-- `WebSearchTool.run_concurrent` on the already-gathered per-query
outcomes. -/
def run_concurrent (results : List (Except String (List Document))) : List Document :=
  dedupByUrl (flatOk results) []

/-- `WebSearchTool.run_concurrent` given the search collaborator itself: one
task per query (`tasks = [search_func(q) for q in queries]`). -/
def run_concurrent_calls (search_func : String → Except String (List Document))
    (queries : List String) : List Document :=
  run_concurrent (queries.map search_func)

/-- The routing answer of the `should_continue_after_*` functions in
`src/agent/graph.py`. -/
inductive Route where
  | next_step
  | end_step
deriving DecidableEq, Repr

/-- `state_has_error` from `src/agent/graph.py`. -/
def state_has_error (state : GraphState) : Bool :=
  !state.errors.isEmpty

/-- `should_continue_after_generate` from `src/agent/graph.py`. -/
def should_continue_after_generate (state : GraphState) : Route :=
  if state_has_error state then .end_step else .next_step

/-- `should_continue_after_search` from `src/agent/graph.py`: errors or an
empty document list both end the loop. -/
def should_continue_after_search (state : GraphState) : Route :=
  if state_has_error state || state.documents.isEmpty then .end_step else .next_step

/-- `should_continue_after_reflect` from `src/agent/graph.py`: loop back only
when more evidence is needed and `loop_count < max_iter`, checked on the
state reflect just returned. -/
def should_continue_after_reflect (state : GraphState) : Route :=
  if state_has_error state then .end_step
  else if state.need_more && decide (state.loop_count < state.max_iter) then .next_step
  else .end_step

/-- The nodes of the compiled LangGraph workflow, plus `done` (after
`synthesize`) and `crashed` (an exception escaped a node). -/
inductive NodeTag where
  | generate_queries
  | web_search
  | reflect
  | synthesize
  | done
  | crashed
deriving DecidableEq, Repr

/-- The collaborator outcomes a run consumes: the generation result, and the
search / reflection results indexed by invocation number. -/
structure Oracles where
  gen_result : Except LLMErr GenerateQueriesOutput
  search_result : Nat → Except String (List Document)
  reflect_result : Nat → Except String ReflectOutput
  synth_result : SynthesizeOutput

/-- A configuration of the running workflow: current node, current state, and
how many times the search / reflection collaborators have been invoked. -/
structure Config where
  node : NodeTag
  state : GraphState
  search_calls : Nat
  reflect_calls : Nat

/-- One step of the compiled workflow (`src/agent/graph.py`): run the current
node's function, then follow its conditional edge. -/
def stepConfig (o : Oracles) (c : Config) : Config :=
  match c.node with
  | .generate_queries =>
    let s := generate_queries_node c.state o.gen_result
    { c with
      state := s,
      node := match should_continue_after_generate s with
              | .next_step => .web_search
              | .end_step => .synthesize }
  | .web_search =>
    let s := web_search_node c.state (o.search_result c.search_calls)
    { c with
      state := s, search_calls := c.search_calls + 1,
      node := match should_continue_after_search s with
              | .next_step => .reflect
              | .end_step => .synthesize }
  | .reflect =>
    match reflect_node c.state (o.reflect_result c.reflect_calls) with
    | .error _ => { c with node := .crashed, reflect_calls := c.reflect_calls + 1 }
    | .ok s =>
      { c with
        state := s, reflect_calls := c.reflect_calls + 1,
        node := match should_continue_after_reflect s with
                | .next_step => .web_search
                | .end_step => .synthesize }
  | .synthesize =>
    { c with state := synthesize_node c.state o.synth_result, node := .done }
  | .done => c
  | .crashed => c

/-- The initial `GraphState` built in `src/agent/main.py` (and the test
fixtures): everything empty, `loop_count = 0`. -/
def initState (question : String) (max_iter : Nat) : GraphState :=
  { question := question, queries := [], documents := [], need_more := false,
    final_answer := "", citations := [], loop_count := 0, max_iter := max_iter,
    errors := [] }

/-- The initial configuration: entry point `generate_queries`, no collaborator
calls made yet. -/
def initConfig (question : String) (max_iter : Nat) : Config :=
  { node := .generate_queries, state := initState question max_iter,
    search_calls := 0, reflect_calls := 0 }

/-- Run the workflow for `n` steps. -/
def iterate (o : Oracles) : Nat → Config → Config
  | 0, c => c
  | n + 1, c => iterate o n (stepConfig o c)

/-- The configurations a run with the given oracles can reach. -/
inductive Reachable (o : Oracles) (question : String) (max_iter : Nat) : Config → Prop where
  | init : Reachable o question max_iter (initConfig question max_iter)
  | step : ∀ {c}, Reachable o question max_iter c →
      Reachable o question max_iter (stepConfig o c)

/-! Concrete fixtures used by witnesses and counterexamples, mirroring the
repository's test fixtures (`tests/test_agent.py`). -/

/-- First mock document (`A@url1`). -/
def docA : Document := { url := "url1", title := "A", content := "The capital of France is Paris." }

/-- Second mock document (`B@url2`). -/
def docB : Document := { url := "url2", title := "B", content := "Paris has many famous landmarks." }

/-- Oracles of the 429 scenario: query generation succeeds, the only search
invocation raises an HTTP 429. -/
def o429 : Oracles :=
  { gen_result := .ok { queries := ["capital of France"] },
    search_result := fun _ => .error "429 Too Many Requests",
    reflect_result := fun _ => .ok { need_more := false, new_queries := none },
    synth_result := { answer := "Paris.", cited_ids := [1] } }

/-- Oracles of an always-need-more run: every search succeeds and every
reflection asks for another round. -/
def oMore : Oracles :=
  { gen_result := .ok { queries := ["q1"] },
    search_result := fun _ => .ok [docA],
    reflect_result := fun _ => .ok { need_more := true, new_queries := some ["q2"] },
    synth_result := { answer := "ans", cited_ids := [1] } }

/-- A state with one recorded error and no evidence. -/
def errState : GraphState :=
  { initState "q" 2 with
    errors := [{ step := .search, error_type := .RateLimit, message := "429" }] }

/-- Oracles whose query generation fails generically. -/
def oGenErr : Oracles :=
  { gen_result := .error { rateLimit := false, message := "boom" },
    search_result := fun _ => .ok [docA],
    reflect_result := fun _ => .ok { need_more := false, new_queries := none },
    synth_result := { answer := "ans", cited_ids := [] } }

/-- A batch used by the C8 witness: a succeeding query, a raising query, and
a second succeeding query repeating an already-seen url. -/
def demoRs : List (Except String (List Document)) :=
  [.ok [docA], .error "boom", .ok [docA, docB]]

/-- The loop invariant behind the iteration bound: `max_iter` never changes,
the search-call counter tracks `loop_count` around the cycle, and it stays
below `max max_iter 1` once the loop can end. -/
def LoopInv (k : Nat) (c : Config) : Prop :=
  c.state.max_iter = k ∧
  (c.node = .generate_queries → c.search_calls = 0 ∧ c.state.loop_count = 0) ∧
  (c.node = .web_search →
      c.search_calls = c.state.loop_count ∧
      (c.search_calls = 0 ∨ c.search_calls < k)) ∧
  (c.node = .reflect →
      c.search_calls = c.state.loop_count + 1 ∧ c.search_calls ≤ max k 1) ∧
  ((c.node = .synthesize ∨ c.node = .done ∨ c.node = .crashed) →
      c.search_calls ≤ max k 1)

/-! Theorems settling the claims. -/

/-- C2: the claim says every collaborator failure in the generate-queries,
web-search, or reflect step becomes exactly one ErrorRecord and never
propagates.  Evaluating the code: `reflect_node` has no handler, so a
collaborator failure during reflection propagates out of the state machine
unchanged (while `generate_queries_node` and `web_search_node` do convert
failures into a single error record). -/
theorem C2_reflect_propagates :
    (∀ (s : GraphState) (e : String), reflect_node s (.error e) = .error e) ∧
    (generate_queries_node (initState "q" 2)
        (.error { rateLimit := true, message := "quota" })).errors =
      [{ step := .generate, error_type := .RateLimit, message := "quota" }] ∧
    (web_search_node (initState "q" 2) (.error "timeout")).errors =
      [{ step := .search, error_type := .HTTPError, message := "timeout" }] :=
  ⟨fun _ _ => rfl, rfl, rfl⟩

/-- C3 counterexample: merging does not de-duplicate against existing
evidence.  With `docA` already held and the new round returning `docA`
again, the merged evidence holds the same url twice, so the claimed
invariant fails at this input. -/
theorem C3_counterexample :
    (web_search_node { initState "q" 2 with documents := [docA] }
        (.ok [docA])).documents = [docA, docA] ∧
    ¬ (((web_search_node { initState "q" 2 with documents := [docA] }
        (.ok [docA])).documents.map Document.url).Nodup) := by
  constructor
  · rfl
  · decide

/-- C3 amended: on a successful search batch the step appends the new
documents after the existing ones, preserving both orders, and clears the
pending queries; no de-duplication against existing evidence happens, so a
url already held may occur again. -/
theorem C3_merge_appends :
    ∀ (s : GraphState) (new_docs : List Document),
      (web_search_node s (.ok new_docs)).documents = s.documents ++ new_docs ∧
      (web_search_node s (.ok new_docs)).queries = [] :=
  fun _ _ => ⟨rfl, rfl⟩

/-- C6: on evidence `[A@url1, B@url2]` with `cited_ids = [2, 1, 2]`, the
remapper produces citations `[{id 1, url2}, {id 2, url1}]` and the marker
string `"[1][2][1]"`: first-seen urls get sequential ids in emission order,
and the repeated original id renders its marker again without adding a
second citation entry. -/
theorem C6_citation_determinism :
    citationsOf [docA, docB] [2, 1, 2] =
      [{ id := 1, url := "url2", title := "B" },
       { id := 2, url := "url1", title := "A" }] ∧
    markerOf [docA, docB] [2, 1, 2] = "[1][2][1]" :=
  ⟨rfl, rfl⟩

/-- C10: when the search batch raises and `web_search_node` takes its error
branch, the documents accumulated so far are returned unchanged and the
pending queries are left untouched. -/
theorem C10_error_branch_frame :
    ∀ (s : GraphState) (e : String),
      (web_search_node s (.error e)).documents = s.documents ∧
      (web_search_node s (.error e)).queries = s.queries := by
  intro s e
  simp only [web_search_node]
  split <;> exact ⟨rfl, rfl⟩

/-- C1 counterexample: with two documents and `cited_ids = [99]`, the
unresolvable id contributes no citation entry, but the marker string is
`"[99]"` — the id is rendered literally, not dropped from the string. -/
theorem C1_counterexample :
    citationsOf [docA, docB] [99] = [] ∧
    markerOf [docA, docB] [99] = "[99]" ∧
    markerOf [docA, docB] [99] ≠ "" := by
  refine ⟨rfl, rfl, ?_⟩
  decide

/-- C7 counterexample: with empty evidence but a non-empty error list,
synthesis returns the fixed apology, not the "no information found" text —
the empty-evidence outcome is not independent of the errors list. -/
theorem C7_counterexample :
    errState.documents = [] ∧
    (synthesize_node errState { answer := "a", cited_ids := [] }).final_answer
      = apology_text ∧
    apology_text ≠ no_info_text := by
  refine ⟨rfl, rfl, ?_⟩
  decide

/-- C7 amended: with empty evidence, synthesis always returns an empty
citations list; the final answer is the fixed "no information found" text
when no error was recorded, but the error branch takes priority when one
was, so the answer text is not independent of `errors`. -/
theorem C7_empty_evidence :
    ∀ (s : GraphState) (llm : SynthesizeOutput), s.documents = [] →
      (synthesize_node s llm).citations = [] ∧
      (s.errors = [] → (synthesize_node s llm).final_answer = no_info_text) ∧
      (s.errors ≠ [] → (synthesize_node s llm).final_answer = apology_text) := by
  intro s llm hdoc
  rcases herr : s.errors with _ | ⟨a, t⟩ <;>
    simp [synthesize_node, herr, hdoc]

/-- C7 witness: the empty-evidence theorem applied to a concrete state with a
recorded error. -/
theorem C7_witness :
    (synthesize_node errState { answer := "a", cited_ids := [] }).citations = [] ∧
    (synthesize_node errState { answer := "a", cited_ids := [] }).final_answer
      = apology_text := by
  have h := C7_empty_evidence errState { answer := "a", cited_ids := [] } rfl
  exact ⟨h.1, h.2.2 (by simp [errState])⟩

/-- An unresolvable id leaves one remapping iteration unchanged. -/
theorem remapStep_of_none {docs : List Document} {id : Int}
    (h : lookupDoc docs id = none) (acc : RemapAcc) :
    remapStep docs acc id = acc := by
  simp [remapStep, h]

/-- Dropping an unresolvable id from `cited_ids` does not change the
accumulated citations, seen urls, or id map. -/
theorem remapAll_drop_of_none {docs : List Document} {bad : Int}
    (h : lookupDoc docs bad = none) (l r : List Int) :
    remapAll docs (l ++ bad :: r) = remapAll docs (l ++ r) := by
  simp [remapAll, List.foldl_append, List.foldl_cons, remapStep_of_none h]

/-- Every entry of the id map produced by the remapping loop either was
already present or keys a resolvable id. -/
theorem idMap_mem_of_foldl (docs : List Document) :
    ∀ (ids : List Int) (acc : RemapAcc) (p : Int × Nat),
      p ∈ (List.foldl (remapStep docs) acc ids).id_map →
      p ∈ acc.id_map ∨ lookupDoc docs p.1 ≠ none := by
  intro ids
  induction ids with
  | nil => intro acc p hp; exact Or.inl hp
  | cons id rest ih =>
    intro acc p hp
    rw [List.foldl_cons] at hp
    rcases ih (remapStep docs acc id) p hp with h | h
    · simp only [remapStep] at h
      split at h
      · rename_i doc hl
        split at h
        · exact Or.inl h
        · rcases List.mem_append.1 h with h1 | h1
          · exact Or.inl h1
          · have hp1 : p.1 = id := by
              cases List.mem_singleton.1 h1; rfl
            rw [hp1, hl]
            exact Or.inr (by simp)
      · exact Or.inl h
    · exact Or.inr h

/-- An unresolvable id is absent from the id map, so the marker fallback
renders the original id itself. -/
theorem idMapGetD_of_none {docs : List Document} {bad : Int}
    (h : lookupDoc docs bad = none) (ids : List Int) :
    idMapGetD (remapAll docs ids).id_map bad = toString bad := by
  unfold idMapGetD
  have hfind : (remapAll docs ids).id_map.find? (fun p => p.1 == bad) = none := by
    rw [List.find?_eq_none]
    intro p hp hbeq
    rcases idMap_mem_of_foldl docs ids _ p hp with h0 | h0
    · simp at h0
    · have hpb : p.1 = bad := eq_of_beq hbeq
      exact h0 (hpb ▸ h)
  rw [hfind]

/-- `String.join` distributes over list append. -/
theorem strJoin_append (a b : List String) :
    String.join (a ++ b) = String.join a ++ String.join b := by
  apply String.ext
  simp

/-- `String.join` on a cons. -/
theorem strJoin_cons (s : String) (l : List String) :
    String.join (s :: l) = s ++ String.join l := by
  apply String.ext
  simp

/-- C1 amended: a `cited_ids` entry that does not resolve in the 1-based
evidence numbering contributes no citation entry and no id-map entry, but it
is not dropped from the marker string: the string renders it literally as
`[id]` with the original id (the map lookup falls back to the id itself). -/
theorem C1_unresolvable_ids :
    ∀ (docs : List Document) (l r : List Int) (bad : Int),
      lookupDoc docs bad = none →
      citationsOf docs (l ++ bad :: r) = citationsOf docs (l ++ r) ∧
      (remapAll docs (l ++ bad :: r)).id_map = (remapAll docs (l ++ r)).id_map ∧
      markerOf docs (l ++ bad :: r) =
        renderIds (remapAll docs (l ++ r)).id_map l ++
          ("[" ++ toString bad ++ "]") ++
          renderIds (remapAll docs (l ++ r)).id_map r := by
  intro docs l r bad h
  have hdrop := remapAll_drop_of_none h l r
  refine ⟨by rw [citationsOf, citationsOf, hdrop], by rw [hdrop], ?_⟩
  have hne : ¬ (l ++ bad :: r).isEmpty = true := by
    simp
  rw [markerOf, if_neg hne, hdrop, renderIds, List.map_append, List.map_cons,
    strJoin_append, strJoin_cons, idMapGetD_of_none h]
  rw [renderIds, renderIds]
  simp [String.append_assoc]

/-- C1 witness: the amended theorem at two documents with
`cited_ids = [2, 99, 1]`. -/
theorem C1_witness :
    lookupDoc [docA, docB] 99 = none ∧
    citationsOf [docA, docB] ([2] ++ 99 :: [1]) = citationsOf [docA, docB] ([2] ++ [1]) ∧
    markerOf [docA, docB] ([2] ++ 99 :: [1]) =
      renderIds (remapAll [docA, docB] ([2] ++ [1])).id_map [2] ++
        ("[" ++ toString (99 : Int) ++ "]") ++
        renderIds (remapAll [docA, docB] ([2] ++ [1])).id_map [1] := by
  have h : lookupDoc [docA, docB] 99 = none := rfl
  have hthm := C1_unresolvable_ids [docA, docB] [2] [1] 99 h
  exact ⟨h, hthm.1, hthm.2.2⟩

/-- `List.contains` on strings agrees with membership. -/
theorem strContains_iff (seen : List String) (u : String) :
    seen.contains u = true ↔ u ∈ seen := by
  simp [List.contains]

/-- No document surviving de-duplication carries an already-seen url. -/
theorem dedupByUrl_not_seen :
    ∀ (l : List Document) (seen : List String) (d : Document),
      d ∈ dedupByUrl l seen → d.url ∉ seen := by
  intro l
  induction l with
  | nil => intro seen d hd; simp [dedupByUrl] at hd
  | cons y t ih =>
    intro seen d hd
    simp only [dedupByUrl] at hd
    split at hd
    · exact ih seen d hd
    · rename_i hy
      rcases List.mem_cons.1 hd with rfl | hd2
      · exact fun hmem => hy ((strContains_iff seen d.url).2 hmem)
      · exact fun hmem =>
          ih (y.url :: seen) d hd2 (List.mem_cons_of_mem _ hmem)

/-- The urls surviving de-duplication are pairwise distinct. -/
theorem dedupByUrl_nodup :
    ∀ (l : List Document) (seen : List String),
      ((dedupByUrl l seen).map Document.url).Nodup := by
  intro l
  induction l with
  | nil => intro seen; simp [dedupByUrl]
  | cons y t ih =>
    intro seen
    simp only [dedupByUrl]
    split
    · exact ih seen
    · simp only [List.map_cons, List.nodup_cons]
      refine ⟨?_, ih (y.url :: seen)⟩
      intro hmem
      rcases List.mem_map.1 hmem with ⟨d, hd, hurl⟩
      exact dedupByUrl_not_seen t (y.url :: seen) d hd
        (by rw [hurl]; exact List.mem_cons_self _ _)

/-- De-duplication only drops elements, preserving relative order. -/
theorem dedupByUrl_sublist :
    ∀ (l : List Document) (seen : List String), (dedupByUrl l seen).Sublist l := by
  intro l
  induction l with
  | nil => intro seen; simp [dedupByUrl]
  | cons y t ih =>
    intro seen
    simp only [dedupByUrl]
    split
    · exact (ih seen).cons y
    · exact (ih (y.url :: seen)).cons₂ y

/-- Every survivor of de-duplication is the first element of the input with
its url. -/
theorem dedupByUrl_first :
    ∀ (l : List Document) (seen : List String) (d : Document),
      d ∈ dedupByUrl l seen → l.find? (fun x => x.url == d.url) = some d := by
  intro l
  induction l with
  | nil => intro seen d hd; simp [dedupByUrl] at hd
  | cons y t ih =>
    intro seen d hd
    simp only [dedupByUrl] at hd
    split at hd
    · rename_i hy
      have hd_not := dedupByUrl_not_seen t seen d hd
      have hy_in : y.url ∈ seen := (strContains_iff seen y.url).1 hy
      have hne : (y.url == d.url) = false := by
        rw [beq_eq_false_iff_ne]
        intro heq
        exact hd_not (heq ▸ hy_in)
      simp only [List.find?, hne]
      exact ih seen d hd
    · rename_i hy
      rcases List.mem_cons.1 hd with rfl | hd2
      · simp [List.find?]
      · have hd_not := dedupByUrl_not_seen t (y.url :: seen) d hd2
        have hne : (y.url == d.url) = false := by
          rw [beq_eq_false_iff_ne]
          intro heq
          exact hd_not (heq ▸ List.mem_cons_self _ _)
        simp only [List.find?, hne]
        exact ih (y.url :: seen) d hd2

/-- Every input url either was already seen or survives in some document of
the de-duplicated output. -/
theorem dedupByUrl_complete :
    ∀ (l : List Document) (seen : List String) (x : Document), x ∈ l →
      x.url ∈ seen ∨ ∃ d ∈ dedupByUrl l seen, d.url = x.url := by
  intro l
  induction l with
  | nil => intro seen x hx; simp at hx
  | cons y t ih =>
    intro seen x hx
    simp only [dedupByUrl]
    split
    · rename_i hc
      rcases List.mem_cons.1 hx with rfl | hx2
      · exact Or.inl ((strContains_iff seen x.url).1 hc)
      · exact ih seen x hx2
    · rcases List.mem_cons.1 hx with rfl | hx2
      · exact Or.inr ⟨x, List.mem_cons_self _ _, rfl⟩
      · rcases ih (y.url :: seen) x hx2 with hs | ⟨d, hd, hurl⟩
        · rcases List.mem_cons.1 hs with heq | hs2
          · exact Or.inr ⟨y, List.mem_cons_self _ _, heq.symm⟩
          · exact Or.inl hs2
        · exact Or.inr ⟨d, List.mem_cons_of_mem _ hd, hurl⟩

/-- A raised per-query result contributes nothing to the flattened batch. -/
theorem flatOk_drop_error
    (rs₁ rs₂ : List (Except String (List Document))) (e : String) :
    flatOk (rs₁ ++ .error e :: rs₂) = flatOk (rs₁ ++ rs₂) := by
  simp [flatOk, List.foldl_append, List.foldl_cons]

/-- C8: the retrieval coordinator returns the empty list for an empty query
batch without issuing any task; a failing query contributes zero documents
without aborting the batch; and the returned documents have pairwise
distinct urls, each being the first occurrence of its url in the flattened
results, in the relative order in which unique urls were first seen. -/
theorem C8_retrieval_coordinator :
    (∀ (search_func : String → Except String (List Document)),
        run_concurrent_calls search_func [] = [] ∧
        ([] : List String).map search_func = []) ∧
    (∀ (rs₁ rs₂ : List (Except String (List Document))) (e : String),
        run_concurrent (rs₁ ++ .error e :: rs₂) = run_concurrent (rs₁ ++ rs₂)) ∧
    (∀ rs : List (Except String (List Document)),
        ((run_concurrent rs).map Document.url).Nodup ∧
        (run_concurrent rs).Sublist (flatOk rs) ∧
        (∀ d ∈ run_concurrent rs,
            (flatOk rs).find? (fun x => x.url == d.url) = some d) ∧
        (∀ x ∈ flatOk rs, ∃ d ∈ run_concurrent rs, d.url = x.url)) := by
  refine ⟨fun _ => ⟨rfl, rfl⟩, ?_, ?_⟩
  · intro rs₁ rs₂ e
    unfold run_concurrent
    rw [flatOk_drop_error]
  · intro rs
    refine ⟨dedupByUrl_nodup _ _, dedupByUrl_sublist _ _, ?_, ?_⟩
    · intro d hd
      exact dedupByUrl_first _ _ _ hd
    · intro x hx
      rcases dedupByUrl_complete (flatOk rs) [] x hx with hs | hd
      · simp at hs
      · exact hd

/-- C8 witness: the coordinator theorem instantiated on a concrete batch. -/
theorem C8_witness :
    ((run_concurrent demoRs).map Document.url).Nodup ∧
    run_concurrent ([.ok [docA]] ++ .error "boom" :: [.ok [docA, docB]]) =
      run_concurrent ([.ok [docA]] ++ [.ok [docA, docB]]) ∧
    (flatOk demoRs).find? (fun x => x.url == docA.url) = some docA ∧
    run_concurrent_calls (fun _ => .ok [docA]) [] = [] := by
  refine ⟨(C8_retrieval_coordinator.2.2 demoRs).1,
    C8_retrieval_coordinator.2.1 [.ok [docA]] [.ok [docA, docB]] "boom",
    (C8_retrieval_coordinator.2.2 demoRs).2.2.1 docA ?_,
    (C8_retrieval_coordinator.1 (fun _ => .ok [docA])).1⟩
  decide

/-- The query-generation step never touches `max_iter` or `loop_count`. -/
theorem generate_queries_node_frame (s : GraphState)
    (r : Except LLMErr GenerateQueriesOutput) :
    (generate_queries_node s r).max_iter = s.max_iter ∧
    (generate_queries_node s r).loop_count = s.loop_count := by
  cases r with
  | ok v => exact ⟨rfl, rfl⟩
  | error e =>
    simp only [generate_queries_node]
    split <;> exact ⟨rfl, rfl⟩

/-- The web-search step never touches `max_iter` or `loop_count`. -/
theorem web_search_node_frame (s : GraphState)
    (r : Except String (List Document)) :
    (web_search_node s r).max_iter = s.max_iter ∧
    (web_search_node s r).loop_count = s.loop_count := by
  cases r with
  | ok v => exact ⟨rfl, rfl⟩
  | error e =>
    simp only [web_search_node]
    split <;> exact ⟨rfl, rfl⟩

/-- A successful reflection returns the updated state explicitly. -/
theorem reflect_node_ok (s : GraphState) (out : ReflectOutput) :
    reflect_node s (.ok out) =
      .ok { s with
            need_more := out.need_more,
            queries := out.new_queries.getD [],
            loop_count := s.loop_count + 1 } := rfl

/-- The synthesis step never touches `max_iter`. -/
theorem synthesize_node_max_iter (s : GraphState) (llm : SynthesizeOutput) :
    (synthesize_node s llm).max_iter = s.max_iter := by
  simp only [synthesize_node]
  split
  · rfl
  · split <;> rfl

/-- A `next_step` route out of the generate node means no error was
recorded. -/
theorem route_gen_next {s : GraphState}
    (h : should_continue_after_generate s = .next_step) : s.errors = [] := by
  unfold should_continue_after_generate at h
  split at h
  · cases h
  · rename_i hc
    simpa [state_has_error, List.isEmpty_iff] using hc

/-- A `next_step` route out of the search node means no error was recorded
(and the evidence is non-empty). -/
theorem route_search_next {s : GraphState}
    (h : should_continue_after_search s = .next_step) :
    s.errors = [] ∧ s.documents ≠ [] := by
  unfold should_continue_after_search at h
  split at h
  · cases h
  · rename_i hc
    rw [Bool.or_eq_true, not_or] at hc
    refine ⟨?_, ?_⟩
    · have := hc.1
      simpa [state_has_error, List.isEmpty_iff] using this
    · have := hc.2
      simpa [List.isEmpty_iff] using this

/-- A `next_step` route out of the reflect node means no error was recorded,
more evidence is wanted, and the loop counter is still below the cap. -/
theorem route_reflect_next {s : GraphState}
    (h : should_continue_after_reflect s = .next_step) :
    s.errors = [] ∧ s.need_more = true ∧ s.loop_count < s.max_iter := by
  unfold should_continue_after_reflect at h
  split at h
  · cases h
  · rename_i hc
    split at h
    · rename_i hcond
      rw [Bool.and_eq_true, decide_eq_true_eq] at hcond
      refine ⟨?_, hcond.1, hcond.2⟩
      simpa [state_has_error, List.isEmpty_iff] using hc
    · cases h

/-- C4 counterexample: with `max_iter = 0` the loop-back is never taken, yet
the (unconditional) first search round still runs: after two steps of the
machine the search collaborator has been invoked once, refuting "at most
`k` times" at `k = 0`. -/
theorem C4_counterexample :
    Reachable oMore "q" 0 (iterate oMore 2 (initConfig "q" 0)) ∧
    (iterate oMore 2 (initConfig "q" 0)).search_calls = 1 ∧
    ¬ ((iterate oMore 2 (initConfig "q" 0)).search_calls ≤ 0) := by
  refine ⟨Reachable.step (Reachable.step Reachable.init), rfl, ?_⟩
  decide

/-- The loop invariant holds initially. -/
theorem loopInv_init (q : String) (k : Nat) : LoopInv k (initConfig q k) := by
  refine ⟨rfl, fun _ => ⟨rfl, rfl⟩, ?_, ?_, ?_⟩
  · intro hx; exact nomatch hx
  · intro hx; exact nomatch hx
  · intro hx; rcases hx with hx | hx | hx <;> exact nomatch hx

/-- The loop invariant is preserved by one step of the workflow. -/
theorem loopInv_step (o : Oracles) (k : Nat) (c : Config) (h : LoopInv k c) :
    LoopInv k (stepConfig o c) := by
  obtain ⟨hmax, hgen, hsearch, hreflect, hterm⟩ := h
  have hk1 : k ≤ max k 1 := le_max_left k 1
  have h11 : 1 ≤ max k 1 := le_max_right k 1
  cases hn : c.node with
  | generate_queries =>
    obtain ⟨hsc, hlc⟩ := hgen hn
    have hfr := generate_queries_node_frame c.state o.gen_result
    simp only [stepConfig, hn]
    cases hr : should_continue_after_generate (generate_queries_node c.state o.gen_result) with
    | next_step =>
      refine ⟨by dsimp only; rw [hfr.1, hmax], ?_, ?_, ?_, ?_⟩
      · intro hx; exact nomatch hx
      · intro _; dsimp only
        refine ⟨by rw [hfr.2]; omega, Or.inl hsc⟩
      · intro hx; exact nomatch hx
      · intro hx; rcases hx with hx | hx | hx <;> exact nomatch hx
    | end_step =>
      refine ⟨by dsimp only; rw [hfr.1, hmax], ?_, ?_, ?_, ?_⟩
      · intro hx; exact nomatch hx
      · intro hx; exact nomatch hx
      · intro hx; exact nomatch hx
      · intro _; dsimp only; omega
  | web_search =>
    obtain ⟨hsclc, hsck⟩ := hsearch hn
    have hfr := web_search_node_frame c.state (o.search_result c.search_calls)
    simp only [stepConfig, hn]
    cases hr : should_continue_after_search
        (web_search_node c.state (o.search_result c.search_calls)) with
    | next_step =>
      refine ⟨by dsimp only; rw [hfr.1, hmax], ?_, ?_, ?_, ?_⟩
      · intro hx; exact nomatch hx
      · intro hx; exact nomatch hx
      · intro _; dsimp only
        constructor
        · rw [hfr.2]; omega
        · omega
      · intro hx; rcases hx with hx | hx | hx <;> exact nomatch hx
    | end_step =>
      refine ⟨by dsimp only; rw [hfr.1, hmax], ?_, ?_, ?_, ?_⟩
      · intro hx; exact nomatch hx
      · intro hx; exact nomatch hx
      · intro hx; exact nomatch hx
      · intro _; dsimp only; omega
  | reflect =>
    obtain ⟨hsclc, hsck⟩ := hreflect hn
    simp only [stepConfig, hn]
    cases hres : o.reflect_result c.reflect_calls with
    | error e =>
      dsimp only [reflect_node, Except.map]
      refine ⟨hmax, ?_, ?_, ?_, ?_⟩
      · intro hx; exact nomatch hx
      · intro hx; exact nomatch hx
      · intro hx; exact nomatch hx
      · intro _; exact hsck
    | ok out =>
      dsimp only [reflect_node, Except.map]
      cases hr : should_continue_after_reflect
          { c.state with
            need_more := out.need_more,
            queries := out.new_queries.getD [],
            loop_count := c.state.loop_count + 1 } with
      | next_step =>
        have hroute := route_reflect_next hr
        have hlt : c.state.loop_count + 1 < k := by
          have := hroute.2.2
          dsimp only at this
          omega
        refine ⟨hmax, ?_, ?_, ?_, ?_⟩
        · intro hx; exact nomatch hx
        · intro _; dsimp only
          exact ⟨hsclc, Or.inr (by omega)⟩
        · intro hx; exact nomatch hx
        · intro hx; rcases hx with hx | hx | hx <;> exact nomatch hx
      | end_step =>
        refine ⟨hmax, ?_, ?_, ?_, ?_⟩
        · intro hx; exact nomatch hx
        · intro hx; exact nomatch hx
        · intro hx; exact nomatch hx
        · intro _; exact hsck
  | synthesize =>
    simp only [stepConfig, hn]
    refine ⟨?_, ?_, ?_, ?_, ?_⟩
    · dsimp only; rw [synthesize_node_max_iter]; exact hmax
    · intro hx; exact nomatch hx
    · intro hx; exact nomatch hx
    · intro hx; exact nomatch hx
    · intro _; exact hterm (Or.inl hn)
  | done =>
    simp only [stepConfig, hn]
    exact ⟨hmax, hgen, hsearch, hreflect, hterm⟩
  | crashed =>
    simp only [stepConfig, hn]
    exact ⟨hmax, hgen, hsearch, hreflect, hterm⟩

/-- C4 amended: in every run with `max_iter = k`, the web-search step is
executed at most `max k 1` times — the loop-back from REFLECT requires
`loop_count < max_iter` strictly before looping and reflection increments
`loop_count`, but the first search round is unconditional, so for `k = 0`
one search still runs. -/
theorem C4_loop_bound :
    ∀ (o : Oracles) (q : String) (k : Nat) (c : Config),
      Reachable o q k c → c.search_calls ≤ max k 1 := by
  intro o q k c hreach
  have hk1 : k ≤ max k 1 := le_max_left k 1
  have h11 : 1 ≤ max k 1 := le_max_right k 1
  have hinv : LoopInv k c := by
    induction hreach with
    | init => exact loopInv_init q k
    | step _ ih => exact loopInv_step _ _ _ ih
  obtain ⟨_, hgen, hsearch, hreflect, hterm⟩ := hinv
  cases hn : c.node with
  | generate_queries => rw [(hgen hn).1]; exact Nat.zero_le _
  | web_search =>
    rcases (hsearch hn).2 with h0 | hlt
    · rw [h0]; exact Nat.zero_le _
    · omega
  | reflect => exact (hreflect hn).2
  | synthesize => exact hterm (Or.inl hn)
  | done => exact hterm (Or.inr (Or.inl hn))
  | crashed => exact hterm (Or.inr (Or.inr hn))

/-- C4 witness: the bound applied to a run with `max_iter = 0` whose
reflection always asks for more evidence, after five steps. -/
theorem C4_witness :
    (iterate oMore 5 (initConfig "q" 0)).search_calls ≤ max 0 1 :=
  C4_loop_bound oMore "q" 0 _
    (Reachable.step (Reachable.step (Reachable.step (Reachable.step
      (Reachable.step Reachable.init)))))

/-- One step of the workflow preserves the error short-circuit invariant:
a configuration whose state records an error is at the synthesis node or
past it. -/
theorem errInv_step (o : Oracles) (c : Config)
    (ih : c.state.errors ≠ [] → c.node = .synthesize ∨ c.node = .done) :
    (stepConfig o c).state.errors ≠ [] →
      (stepConfig o c).node = .synthesize ∨ (stepConfig o c).node = .done := by
  cases hn : c.node with
  | generate_queries =>
    simp only [stepConfig, hn]
    cases hr : should_continue_after_generate
        (generate_queries_node c.state o.gen_result) with
    | next_step =>
      intro herr
      exact absurd (route_gen_next hr) herr
    | end_step => intro _; exact Or.inl rfl
  | web_search =>
    simp only [stepConfig, hn]
    cases hr : should_continue_after_search
        (web_search_node c.state (o.search_result c.search_calls)) with
    | next_step =>
      intro herr
      exact absurd (route_search_next hr).1 herr
    | end_step => intro _; exact Or.inl rfl
  | reflect =>
    simp only [stepConfig, hn]
    cases hres : o.reflect_result c.reflect_calls with
    | error e =>
      dsimp only [reflect_node, Except.map]
      intro herr
      rcases ih herr with h | h <;> rw [hn] at h <;> cases h
    | ok out =>
      dsimp only [reflect_node, Except.map]
      cases hr : should_continue_after_reflect
          { c.state with
            need_more := out.need_more,
            queries := out.new_queries.getD [],
            loop_count := c.state.loop_count + 1 } with
      | next_step =>
        intro herr
        exact absurd (route_reflect_next hr).1 herr
      | end_step => intro _; exact Or.inl rfl
  | synthesize =>
    simp only [stepConfig, hn]
    intro _
    exact Or.inr trivial
  | done =>
    simp only [stepConfig, hn]
    intro _
    exact Or.inr trivial
  | crashed =>
    simp only [stepConfig, hn]
    intro herr
    rcases ih herr with h | h <;> rw [hn] at h <;> cases h

/-- C5: once the error list is non-empty at a reachable configuration, the
run is at the synthesis node or already finished — no further retrieval or
reflection step executes (the call counters never move again) — and the
synthesis step returns the fixed apology with an empty citations list. -/
theorem C5_error_short_circuit :
    ∀ (o : Oracles) (q : String) (k : Nat) (c : Config),
      Reachable o q k c → c.state.errors ≠ [] →
      (c.node = .synthesize ∨ c.node = .done) ∧
      (stepConfig o c).search_calls = c.search_calls ∧
      (stepConfig o c).reflect_calls = c.reflect_calls ∧
      (c.node = .synthesize →
        (stepConfig o c).node = .done ∧
        (stepConfig o c).state.final_answer = apology_text ∧
        (stepConfig o c).state.citations = []) := by
  intro o q k c hreach herr
  have hnode : c.node = .synthesize ∨ c.node = .done := by
    refine (?_ : c.state.errors ≠ [] → _) herr
    clear herr
    induction hreach with
    | init => intro h0; exact absurd rfl h0
    | step _ ih => exact errInv_step o _ ih
  have hsynth : c.node = .synthesize →
      (stepConfig o c).node = .done ∧
      (stepConfig o c).state.final_answer = apology_text ∧
      (stepConfig o c).state.citations = [] := by
    intro hn
    simp only [stepConfig, hn]
    rcases herrs : c.state.errors with _ | ⟨a, t⟩
    · exact absurd herrs herr
    · refine ⟨trivial, ?_, ?_⟩ <;> simp [synthesize_node, herrs]
  rcases hnode with hn | hn
  · exact ⟨Or.inl hn, by simp [stepConfig, hn], by simp [stepConfig, hn], hsynth⟩
  · exact ⟨Or.inr hn, by simp [stepConfig, hn], by simp [stepConfig, hn], hsynth⟩

/-- C5 witness: the short-circuit theorem applied after a failed query
generation in a concrete run. -/
theorem C5_witness :
    ((iterate oGenErr 1 (initConfig "q" 2)).node = NodeTag.synthesize ∨
      (iterate oGenErr 1 (initConfig "q" 2)).node = NodeTag.done) ∧
    (stepConfig oGenErr (iterate oGenErr 1 (initConfig "q" 2))).state.final_answer
      = apology_text := by
  have h := C5_error_short_circuit oGenErr "q" 2
    (iterate oGenErr 1 (initConfig "q" 2))
    (Reachable.step Reachable.init) (by decide)
  exact ⟨h.1, (h.2.2.2 rfl).2.1⟩

/-- C9 amended: when query generation succeeds and the only search round
raises an error whose message mentions 429 or Too Many Requests, the run
terminates after three steps with the fixed generic apology (which asks the
user to try again later but does not name rate limiting), an empty
citations list, `need_more = false`, a single RateLimit error record, and
the search collaborator invoked exactly once with no retry. -/
theorem C9_rate_limited_run :
    ∀ (o : Oracles) (q : String) (k : Nat) (qs : GenerateQueriesOutput) (m : String),
      o.gen_result = .ok qs →
      o.search_result 0 = .error m →
      (strHasSub m "429" || strHasSub m "Too Many Requests") = true →
      (iterate o 3 (initConfig q k)).node = .done ∧
      (iterate o 3 (initConfig q k)).state.final_answer = apology_text ∧
      (iterate o 3 (initConfig q k)).state.citations = [] ∧
      (iterate o 3 (initConfig q k)).state.need_more = false ∧
      (iterate o 3 (initConfig q k)).search_calls = 1 ∧
      (iterate o 3 (initConfig q k)).state.errors =
        [{ step := .search, error_type := .RateLimit, message := m }] ∧
      stepConfig o (iterate o 3 (initConfig q k)) = iterate o 3 (initConfig q k) := by
  intro o q k qs m hgen hsearch hcond
  have h1 : stepConfig o (initConfig q k) =
      { node := .web_search,
        state := { initState q k with queries := qs.queries },
        search_calls := 0, reflect_calls := 0 } := by
    simp only [stepConfig, initConfig]
    rw [hgen]
    rfl
  have h2 : stepConfig o
      ({ node := .web_search,
         state := { initState q k with queries := qs.queries },
         search_calls := 0, reflect_calls := 0 } : Config) =
      { node := .synthesize,
        state := { initState q k with
                   queries := qs.queries,
                   errors := [{ step := .search, error_type := .RateLimit,
                                message := m }] },
        search_calls := 1, reflect_calls := 0 } := by
    simp only [stepConfig]
    rw [hsearch]
    simp [web_search_node, hcond, should_continue_after_search, state_has_error,
      log_error]
  have h3 : stepConfig o
      ({ node := .synthesize,
         state := { initState q k with
                    queries := qs.queries,
                    errors := [{ step := .search, error_type := .RateLimit,
                                 message := m }] },
         search_calls := 1, reflect_calls := 0 } : Config) =
      { node := .done,
        state := { initState q k with
                   queries := qs.queries,
                   errors := [{ step := .search, error_type := .RateLimit,
                                message := m }],
                   final_answer := apology_text,
                   citations := [] },
        search_calls := 1, reflect_calls := 0 } := by
    simp [stepConfig, synthesize_node]
  have hall : iterate o 3 (initConfig q k) =
      { node := .done,
        state := { initState q k with
                   queries := qs.queries,
                   errors := [{ step := .search, error_type := .RateLimit,
                                message := m }],
                   final_answer := apology_text,
                   citations := [] },
        search_calls := 1, reflect_calls := 0 } := by
    show stepConfig o (stepConfig o (stepConfig o (initConfig q k))) = _
    rw [h1, h2, h3]
  rw [hall]
  exact ⟨rfl, rfl, rfl, rfl, rfl, rfl, rfl⟩

/-- C9 witness: the amended run theorem applied to concrete oracles raising
`429 Too Many Requests` on the only search round. -/
theorem C9_witness :
    (iterate o429 3 (initConfig "What is the capital of France?" 2)).state.final_answer
      = apology_text ∧
    (iterate o429 3 (initConfig "What is the capital of France?" 2)).state.citations
      = [] ∧
    (iterate o429 3 (initConfig "What is the capital of France?" 2)).state.need_more
      = false ∧
    (iterate o429 3 (initConfig "What is the capital of France?" 2)).search_calls
      = 1 := by
  have h := C9_rate_limited_run o429 "What is the capital of France?" 2
    { queries := ["capital of France"] } "429 Too Many Requests" rfl rfl (by decide)
  exact ⟨h.2.1, h.2.2.1, h.2.2.2.1, h.2.2.2.2.1⟩

/-- C9 counterexample: in the concrete 429 run the final answer is the fixed
generic apology, whose text never contains "rate", "Rate", "limit" or
"429" — it does not mention rate limiting. -/
theorem C9_counterexample :
    (iterate o429 3 (initConfig "What is the capital of France?" 2)).state.final_answer
      = apology_text ∧
    strHasSub apology_text "rate" = false ∧
    strHasSub apology_text "Rate" = false ∧
    strHasSub apology_text "limit" = false ∧
    strHasSub apology_text "429" = false := by
  refine ⟨rfl, ?_, ?_, ?_, ?_⟩ <;> decide

end Agent
